import Mathlib

-- Verification of the cis_interface communication/driver routing layer and
-- metaschema container type system, embedded shallowly from the Python source.

-- ===========================================================================
-- Metaschema values and typedefs
-- (cis_interface/metaschema/datatypes/ContainerMetaschemaType.py and
--  JSONObjectMetaschemaType.py)
-- ===========================================================================

mutual

-- A native value handled by the metaschema type system: either a datum of the
-- base scalar type, or a JSON-object container (a Python dict, modelled as an
-- insertion-ordered association sequence, as dict iteration order is).
inductive JVal where
  | scalar (s : String) : JVal
  | jobject (entries : JEntries) : JVal

-- Entries of a dict container, in iteration order.
inductive JEntries where
  | nil : JEntries
  | cons (k : String) (v : JVal) (rest : JEntries) : JEntries

end

-- A typedef dict: the optional entry under the key "type" and the optional
-- per-element property map under the key "properties" (the value of
-- JSONObjectMetaschemaType._json_property).
inductive Typedef where
  | mk (type : Option String) (properties : Option (List (String × Typedef))) : Typedef

def Typedef.type : Typedef → Option String
  | Typedef.mk t _ => t

def Typedef.properties : Typedef → Option (List (String × Typedef))
  | Typedef.mk _ p => p

-- The empty typedef dict, the default substituted by decode_data for a
-- missing per-element entry (ContainerMetaschemaType.decode_data, line 121).
def emptyTypedef : Typedef := Typedef.mk none none

-- Dict lookup on a property map: `k in d` / `d[k]` of
-- ContainerMetaschemaType._get_element with the JSONObject hooks.
def lookupTd : List (String × Typedef) → String → Option Typedef
  | [], _ => none
  | p :: rest, k => if p.1 = k then some p.2 else lookupTd rest k

mutual

-- Modelled from the spec: the generic dispatcher encode_data of the
-- metaschema.datatypes registry module (not under src/), which looks up the
-- value's type class by name and delegates to its encode_data; the registry
-- holds the base scalar class (encoding a scalar datum is the identity here,
-- standing for the scalar class's invertible byte encoding) and the JSON
-- object container class.  The jobject branches are the body of
-- ContainerMetaschemaType.encode_data (lines 83-104) with the
-- JSONObjectMetaschemaType hooks _iterate/_assign/_has_element, inlined so
-- the recursion is structural; JSONObject_encode_data below names it:
-- a fresh container is filled by encoding each element with the per-element
-- typedef from the property map when the typedef has one (None otherwise),
-- and passing the Python value None as the container typedef makes
-- `_json_property in typedef` raise TypeError.
def encode_data : JVal → Option Typedef → Except String JVal
  | JVal.scalar s, _ => Except.ok (JVal.scalar s)
  | JVal.jobject _, none =>
    Except.error "TypeError: argument of type NoneType is not iterable"
  | JVal.jobject l, some td0 =>
    match encode_entries l td0.properties with
    | Except.ok out => Except.ok (JVal.jobject out)
    | Except.error e => Except.error e

-- The element loop of ContainerMetaschemaType.encode_data: when the container
-- typedef has no properties entry every element typedef is None; otherwise it
-- is _get_element(typedef[_json_property], k, None).
def encode_entries : JEntries → Option (List (String × Typedef)) → Except String JEntries
  | JEntries.nil, _ => Except.ok JEntries.nil
  | JEntries.cons k v rest, props =>
    match encode_data v (match props with
      | some ps => lookupTd ps k
      | none => none) with
    | Except.error e => Except.error e
    | Except.ok ev =>
      match encode_entries rest props with
      | Except.error e => Except.error e
      | Except.ok erest => Except.ok (JEntries.cons k ev erest)

end

-- ContainerMetaschemaType.encode_data (lines 83-104) specialized by the
-- JSONObjectMetaschemaType hooks, as reached through the dispatcher.
def JSONObject_encode_data (l : JEntries) (td : Option Typedef) : Except String JVal :=
  encode_data (JVal.jobject l) td

mutual

-- Modelled from the spec: the registry-resolving decode entry point of the
-- metaschema.datatypes module (not under src/): get_type_class(typedef[
-- "type"]).decode_data(obj, typedef).  A typedef without a "type" key raises
-- KeyError; an unregistered name raises a type-resolution error; the scalar
-- class decodes its datum back (identity, inverse of the modelled scalar
-- encoding).  The object branch is the body of
-- ContainerMetaschemaType.decode_data (lines 106-124) with the JSONObject
-- hooks, inlined so the recursion is structural (JSONObject_decode_data
-- below names it): typedef[_json_property] raises KeyError when absent, and
-- each element typedef defaults to the empty dict when missing from the
-- property map.
def decode_data (v : JVal) (td : Typedef) : Except String JVal :=
  match td.type with
  | none => Except.error "KeyError: type"
  | some n =>
    if n = "scalar" then Except.ok v
    else if n = "object" then
      match td.properties with
      | none => Except.error "KeyError: properties"
      | some props =>
        match v with
        | JVal.scalar _ => Except.error "TypeError: argument is not iterable"
        | JVal.jobject l =>
          match decode_entries l props with
          | Except.ok out => Except.ok (JVal.jobject out)
          | Except.error e => Except.error e
    else Except.error "ValueError: type not registered"

-- The element loop of ContainerMetaschemaType.decode_data:
-- vtypedef = _get_element(typedef[_json_property], k, {}) and then
-- get_type_class(vtypedef["type"]).decode_data(v, vtypedef).
def decode_entries : JEntries → List (String × Typedef) → Except String JEntries
  | JEntries.nil, _ => Except.ok JEntries.nil
  | JEntries.cons k v rest, props =>
    match decode_data v (Option.getD (lookupTd props k) emptyTypedef) with
    | Except.error e => Except.error e
    | Except.ok dv =>
      match decode_entries rest props with
      | Except.error e => Except.error e
      | Except.ok drest => Except.ok (JEntries.cons k dv drest)

end

-- ContainerMetaschemaType.decode_data (lines 106-124) specialized by the
-- JSONObjectMetaschemaType hooks, as reached through the dispatcher for a
-- typedef whose type entry is the object container type.
def JSONObject_decode_data (v : JVal) (td : Typedef) : Except String JVal :=
  match td.properties with
  | none => Except.error "KeyError: properties"
  | some props =>
    match v with
    | JVal.scalar _ => Except.error "TypeError: argument is not iterable"
    | JVal.jobject l =>
      match decode_entries l props with
      | Except.ok out => Except.ok (JVal.jobject out)
      | Except.error e => Except.error e

-- True when the entries already hold the key (dict keys are unique).
def hasKey : JEntries → String → Bool
  | JEntries.nil, _ => false
  | JEntries.cons k2 _ rest, k => decide (k2 = k) || hasKey rest k

-- Dict keys are pairwise distinct; part of being the image of a Python dict.
def nodupKeys : JEntries → Bool
  | JEntries.nil => true
  | JEntries.cons k _ rest => !(hasKey rest k) && nodupKeys rest

mutual

-- Modelled from the spec: conformance of a value to a typedef (the metaschema
-- validator machinery is not under src/).  A scalar datum conforms to the
-- scalar typedef; a dict conforms to an object typedef whose property map
-- supplies a typedef for every element, recursively.
def valid_value : JVal → Typedef → Bool
  | JVal.scalar _, td => decide (td.type = some "scalar")
  | JVal.jobject l, td =>
    decide (td.type = some "object") &&
      (match td.properties with
       | none => false
       | some props => nodupKeys l && valid_entries l props)

-- Every entry has a per-element typedef in the property map and conforms
-- to it.
def valid_entries : JEntries → List (String × Typedef) → Bool
  | JEntries.nil, _ => true
  | JEntries.cons k v rest, props =>
    (match lookupTd props k with
     | none => false
     | some vtd => valid_value v vtd) && valid_entries rest props

end

mutual

-- Round trip for any value conforming to its typedef: encoding succeeds and
-- decoding the result restores the value.
theorem roundtrip_val (v : JVal) (td : Typedef) (h : valid_value v td = true) :
    ∃ e, encode_data v (some td) = Except.ok e ∧ decode_data e td = Except.ok v := by
  cases v with
  | scalar s =>
    have ht : td.type = some "scalar" := by
      simpa [valid_value] using h
    exact ⟨JVal.scalar s, rfl, by simp [decode_data, ht]⟩
  | jobject l =>
    simp only [valid_value, Bool.and_eq_true, decide_eq_true_eq] at h
    obtain ⟨ht, h2⟩ := h
    rcases hp : td.properties with _ | props
    · rw [hp] at h2
      simp at h2
    · rw [hp] at h2
      simp only [Bool.and_eq_true] at h2
      obtain ⟨el, he, hd⟩ := roundtrip_entries l props h2.2
      refine ⟨JVal.jobject el, ?_, ?_⟩
      · simp [encode_data, hp, he]
      · simp [decode_data, ht, hp, hd]

-- Round trip for the element loop, elementwise.
theorem roundtrip_entries (l : JEntries) (props : List (String × Typedef))
    (h : valid_entries l props = true) :
    ∃ el, encode_entries l (some props) = Except.ok el ∧
      decode_entries el props = Except.ok l := by
  cases l with
  | nil => exact ⟨JEntries.nil, rfl, rfl⟩
  | cons k v rest =>
    simp only [valid_entries, Bool.and_eq_true] at h
    rcases hl : lookupTd props k with _ | vtd
    · rw [hl] at h
      simp at h
    · rw [hl] at h
      obtain ⟨ev, hev, hdv⟩ := roundtrip_val v vtd h.1
      obtain ⟨erest, her, hdr⟩ := roundtrip_entries rest props h.2
      refine ⟨JEntries.cons k ev erest, ?_, ?_⟩
      · simp [encode_entries, hl, hev, her]
      · simp [decode_entries, hl, hdv, hdr]

end

-- Concrete typedefs and a depth-2 nested container value used as witnesses.
def tdScalar : Typedef := Typedef.mk (some "scalar") none

def tdInner : Typedef := Typedef.mk (some "object") (some [("b", tdScalar)])

def tdEx : Typedef := Typedef.mk (some "object") (some [("a", tdInner), ("c", tdScalar)])

def vEx : JVal :=
  JVal.jobject (JEntries.cons "a"
    (JVal.jobject (JEntries.cons "b" (JVal.scalar "x") JEntries.nil))
    (JEntries.cons "c" (JVal.scalar "y") JEntries.nil))

/-- C1: for every container typedef T and every value v valid under T,
decoding the encoding of v under T restores v, recursively through nested
containers; elements are encoded via the generic dispatcher with the
per-element typedef from the container typedef's property map and decoded by
the registry-resolved class. -/
theorem container_encode_decode_roundtrip (v : JVal) (T : Typedef)
    (_hT : T.type = some "object") (h : valid_value v T = true) :
    ∃ e, encode_data v (some T) = Except.ok e ∧ decode_data e T = Except.ok v :=
  roundtrip_val v T h

/-- Witness for C1 on a depth-2 nested container. -/
theorem container_encode_decode_roundtrip_witness :
    Typedef.type tdEx = some "object" ∧ valid_value vEx tdEx = true ∧
      (∃ e, encode_data vEx (some tdEx) = Except.ok e ∧
        decode_data e tdEx = Except.ok vEx) :=
  ⟨rfl, rfl, container_encode_decode_roundtrip vEx tdEx rfl rfl⟩

/-- C4 counterexample: decoding a container value whose key has no entry in
the per-element property map does raise a lookup error (the KeyError produced
by reading the type key of the substituted empty typedef), contradicting the
claim that no lookup error is raised. -/
theorem missing_element_typedef_counterexample :
    decode_data (JVal.jobject (JEntries.cons "a" (JVal.scalar "x") JEntries.nil))
      (Typedef.mk (some "object") (some [])) = Except.error "KeyError: type" := rfl

/-- C4 amended: when the per-element property map has no entry for an element
key, decode_data substitutes the empty typedef for that element and then
raises a lookup error, the KeyError on the missing type key of the empty
typedef; it does not decode the element through a base-type fallback. -/
theorem missing_element_typedef_amended (k : String) (v : JVal)
    (props : List (String × Typedef)) (h : lookupTd props k = none) :
    decode_data (JVal.jobject (JEntries.cons k v JEntries.nil))
      (Typedef.mk (some "object") (some props)) = Except.error "KeyError: type" := by
  simp [decode_data, Typedef.type, Typedef.properties, decode_entries, h, emptyTypedef]

/-- Witness for C4 amended: a nonempty property map lacking the element key. -/
theorem missing_element_typedef_amended_witness :
    lookupTd [("z", tdScalar)] "a" = none ∧
      decode_data (JVal.jobject (JEntries.cons "a" (JVal.scalar "x") JEntries.nil))
        (Typedef.mk (some "object") (some [("z", tdScalar)])) =
        Except.error "KeyError: type" :=
  ⟨rfl, missing_element_typedef_amended "a" (JVal.scalar "x") [("z", tdScalar)] rfl⟩

-- ===========================================================================
-- MetaschemaProperty validation
-- (cis_interface/metaschema/properties/MetaschemaProperty.py)
-- ===========================================================================

-- The _validate class attribute: None (default behavior), False (validation
-- disabled), or a user provided validate function returning the error
-- messages (its Python None result is the empty list here, as `or ()`).
inductive ValidateHook (A B : Type) where
  | default : ValidateHook A B
  | disabled : ValidateHook A B
  | custom (f : B → A → List String) : ValidateHook A B

-- A metaschema property class: the accepted instance types, the JSON schema
-- validator's is_type check, the encode class method, the compare class
-- method (yielding comparison failure messages), and the _validate hook.
-- A is the instance type, B the property value domain.
structure MetaschemaProperty (A B : Type) where
  types : List String
  is_type : A → String → Bool
  encode : A → B → B
  compare : B → B → List String
  hook : ValidateHook A B

-- MetaschemaProperty.validate (lines 70-100): if _validate is False no
-- errors are yielded; if a user validate function is set its messages are
-- yielded; otherwise, when no accepted type matches the instance nothing is
-- yielded, else the instance is encoded (with the schema value as typedef)
-- and the encoded result compared against the schema value, yielding every
-- message from compare.  The generator yields strings; it never raises on a
-- mismatch, so the model is a total function onto the message list.
def MetaschemaProperty.validate (cls : MetaschemaProperty A B) (value : B)
    (inst : A) : List String :=
  match cls.hook with
  | ValidateHook.disabled => []
  | ValidateHook.custom f => f value inst
  | ValidateHook.default =>
    if cls.types.any (fun t => cls.is_type inst t) then
      cls.compare (cls.encode inst value) value
    else []

-- MetaschemaProperty.compare without a _compare override (lines 102-120):
-- unequal property values yield a single message.
def default_compare [DecidableEq B] [ToString B] (prop1 prop2 : B) : List String :=
  if prop1 ≠ prop2 then [toString prop1 ++ " is not equal to " ++ toString prop2]
  else []

-- A string-typed property class using the default encode/compare behavior.
def strProp : MetaschemaProperty String String :=
  { types := ["string"]
    is_type := fun _ t => decide (t = "string")
    encode := fun inst _ => inst
    compare := default_compare
    hook := ValidateHook.default }

-- A property class none of whose accepted types matches a string instance.
def numProp : MetaschemaProperty String String :=
  { types := ["number"]
    is_type := fun _ t => decide (t = "string")
    encode := fun inst _ => inst
    compare := default_compare
    hook := ValidateHook.default }

/-- C8: with the default validate behavior, when the instance matches none of
the accepted runtime types validate yields no errors; when it matches one,
the instance is encoded and every mismatch reported by the class compare
function on the encoded value and the schema value is yielded as an error
string; validate is total (never raises) either way. -/
theorem metaschema_property_validate {A B : Type} (cls : MetaschemaProperty A B)
    (value : B) (inst : A) (hhook : cls.hook = ValidateHook.default) :
    (cls.types.any (fun t => cls.is_type inst t) = false →
      cls.validate value inst = []) ∧
    (cls.types.any (fun t => cls.is_type inst t) = true →
      cls.validate value inst = cls.compare (cls.encode inst value) value) := by
  constructor <;> intro h <;> simp [MetaschemaProperty.validate, hhook, h]

/-- Witness for C8: a matching string instance yields exactly the compare
message for a mismatched schema value, and a non-matching instance yields
nothing. -/
theorem metaschema_property_validate_witness :
    strProp.validate "b" "a" = ["a is not equal to b"] ∧
      numProp.validate "b" "a" = [] := by
  constructor
  · have h := (metaschema_property_validate strProp "b" "a" rfl).2 (by decide)
    rw [h]
    rfl
  · exact (metaschema_property_validate numProp "b" "a" rfl).1 (by decide)

-- ===========================================================================
-- Comm transport abstraction
-- (CommBase and its backends are not under src/, only their test
--  cis_interface/communication/tests/test_FileComm.py; the uniform contract
--  is modelled from the spec.)
-- ===========================================================================

-- Modelled from the spec: the reserved EOF sentinel bytes agreed by both
-- ends of a Comm.
def eof_msg : String := "EOF"

-- Modelled from the spec: one endpoint of a Comm; the channel contents in
-- transit are threaded separately as a FIFO list of messages.
structure CommBase where
  is_closed : Bool

-- Modelled from the spec: the size-limited send path.  Sending the EOF
-- sentinel is a valid exchange that enqueues the sentinel, flips is_closed
-- on the sender, and returns success False; an ordinary send on an open comm
-- enqueues the message and succeeds; sends on a closed comm fail.
def CommBase.send (c : CommBase) (q : List String) (msg : String) :
    Bool × CommBase × List String :=
  if msg = eof_msg then (false, { is_closed := true }, q ++ [msg])
  else if c.is_closed then (false, c, q)
  else (true, c, q ++ [msg])

-- Modelled from the spec: the size-limited recv path.  Receiving the EOF
-- sentinel flips is_closed on the receiver and returns success False with
-- the sentinel as the message; an ordinary message is dequeued with success.
def CommBase.recv (c : CommBase) (q : List String) :
    Bool × String × CommBase × List String :=
  match q with
  | [] => (false, "", c, [])
  | m :: rest =>
    if m = eof_msg then (false, m, { is_closed := true }, rest)
    else (true, m, c, rest)

-- Modelled from the spec: the chunked send path for payloads exceeding the
-- transport's atomic-message size limit.  The EOF sentinel is handled
-- exactly as on the size-limited path; a payload is sent as a size header
-- followed by the body, reassembled transparently by recv_nolimit.
def CommBase.send_nolimit (c : CommBase) (q : List String) (msg : String) :
    Bool × CommBase × List String :=
  if msg = eof_msg then (false, { is_closed := true }, q ++ [msg])
  else if c.is_closed then (false, c, q)
  else (true, c, q ++ [toString msg.length, msg])

-- Modelled from the spec: the chunked recv path; an EOF sentinel at the head
-- of the channel behaves exactly as on the size-limited path, otherwise the
-- size header is consumed and the reassembled body returned.
def CommBase.recv_nolimit (c : CommBase) (q : List String) :
    Bool × String × CommBase × List String :=
  match q with
  | [] => (false, "", c, [])
  | m :: rest =>
    if m = eof_msg then (false, m, { is_closed := true }, rest)
    else
      match rest with
      | body :: rest2 => (true, body, c, rest2)
      | [] => (false, "", c, q)

/-- C7: on an empty channel, send of the EOF sentinel returns success False
and closes the sender, and the peer's recv then returns success False with
the EOF sentinel as the message and closes the receiver; identically for the
size-limited and the chunked nolimit paths. -/
theorem comm_eof_send_recv (sender receiver : CommBase) :
    CommBase.send sender [] eof_msg = (false, { is_closed := true }, [eof_msg]) ∧
    CommBase.recv receiver [eof_msg] = (false, eof_msg, { is_closed := true }, []) ∧
    CommBase.send_nolimit sender [] eof_msg =
      (false, { is_closed := true }, [eof_msg]) ∧
    CommBase.recv_nolimit receiver [eof_msg] =
      (false, eof_msg, { is_closed := true }, []) :=
  ⟨rfl, rfl, rfl, rfl⟩

-- ===========================================================================
-- ServerRequestDriver
-- (cis_interface/drivers/ServerRequestDriver.py; the base ConnectionDriver,
--  ServerResponseDriver and the CIS_CLIENT_INI constant of
--  ClientRequestDriver are not under src/ and are modelled from the spec.)
-- ===========================================================================

-- Modelled from the spec: the reserved client sign-on sentinel defined in
-- ClientRequestDriver (not under src/).
def CIS_CLIENT_INI : String := "CLIENT_SIGNON"

-- Header keyword arguments attached to a forwarded message; each entry is
-- optional, written only by setdefault in send_message.
structure HeaderKwargs where
  response_address : Option String
  id : Option String
  send_header : Option Bool
deriving DecidableEq

-- The header kwargs of a message forwarded without touching the header.
def emptyHk : HeaderKwargs :=
  { response_address := none, id := none, send_header := none }

-- Modelled from the spec: a ServerResponseDriver (not under src/), the
-- ephemeral per-request driver: bound to the client response address and the
-- request id, with its own model-facing listening address.
structure ServerResponseDriver where
  response_address : String
  comm : Option String
  msg_id : String
  model_response_address : String
  started : Bool
deriving DecidableEq

-- Modelled from the spec: ServerResponseDriver(response_address, comm=...,
-- msg_id=...); the model-facing address is freshly generated from a counter.
def mkServerResponseDriver (addr : String) (comm : Option String)
    (msg_id : String) (fresh : Nat) : ServerResponseDriver :=
  { response_address := addr
    comm := comm
    msg_id := msg_id
    model_response_address := "model_response." ++ toString fresh
    started := false }

-- ServerResponseDriver.start().
def ServerResponseDriver.start (d : ServerResponseDriver) : ServerResponseDriver :=
  { d with started := true }

-- The state of a ServerRequestDriver: the client counter, the last received
-- header fields (icomm._last_header entries response_address and id), the
-- comm class and the open flag checked under the lock, the list of spawned
-- response drivers, the fresh-address counter for new response drivers, and
-- the messages forwarded downstream to the output comm with their header
-- kwargs.
structure ServerRequestDriver where
  nclients : Int
  last_response_address : String
  last_id : String
  comm : Option String
  comm_open : Bool
  response_drivers : List ServerResponseDriver
  next_address : Nat
  sent : List (String × HeaderKwargs)
deriving DecidableEq

-- Modelled from the spec: ConnectionDriver.send_message, forwarding the
-- message with its header kwargs to the output comm.
def base_send_message (st : ServerRequestDriver) (msg : String)
    (hk : HeaderKwargs) : Bool × ServerRequestDriver :=
  (true, { st with sent := st.sent ++ [(msg, hk)] })

-- ServerRequestDriver.send_message (lines 108-135): unless the last header's
-- response_address is the EOF sentinel the driver, under its lock, returns
-- False if its comm is not open, else instantiates and starts a new
-- ServerResponseDriver on that address bound to the request id, appends it
-- to response_drivers, and setdefaults the outgoing header's send_header,
-- response_address (to the new driver's model-facing address) and id (to
-- the request id) before delegating to the parent send_message.
def ServerRequestDriver.send_message (st : ServerRequestDriver) (msg : String)
    (hk : HeaderKwargs) : Bool × ServerRequestDriver :=
  if st.last_response_address ≠ "EOF" then
    if st.comm_open = false then (false, st)
    else
      let drv := ServerResponseDriver.start
        (mkServerResponseDriver st.last_response_address st.comm st.last_id
          st.next_address)
      let st1 : ServerRequestDriver :=
        { st with response_drivers := st.response_drivers ++ [drv]
                  next_address := st.next_address + 1 }
      let hk1 : HeaderKwargs :=
        { send_header := some (hk.send_header.getD true)
          response_address := some (hk.response_address.getD drv.model_response_address)
          id := some (hk.id.getD st.last_id) }
      base_send_message st1 msg hk1
  else base_send_message st msg hk

-- Modelled from the spec: ConnectionDriver.on_message, the identity
-- transform hook.
def base_on_message (st : ServerRequestDriver) (msg : String) :
    ServerRequestDriver × String :=
  (st, msg)

-- ServerRequestDriver.on_message (lines 93-106): a client sign-on sentinel
-- increments nclients and is replaced by the empty message before the parent
-- hook runs.
def ServerRequestDriver.on_message (st : ServerRequestDriver) (msg : String) :
    ServerRequestDriver × String :=
  if msg = CIS_CLIENT_INI then
    base_on_message { st with nclients := st.nclients + 1 } ""
  else base_on_message st msg

-- Modelled from the spec: ConnectionDriver.on_eof, which propagates EOF to
-- the output comm (through the driver's send_message, hence through the
-- ServerRequestDriver override) and reports the EOF downstream.
def base_on_eof (st : ServerRequestDriver) : ServerRequestDriver × String :=
  ((ServerRequestDriver.send_message st eof_msg emptyHk).2, eof_msg)

-- ServerRequestDriver.on_eof (lines 84-91): decrement nclients; only when
-- the count reaches zero overwrite the last header's response_address with
-- the EOF sentinel and delegate to the parent on_eof, else swallow the EOF
-- by returning the empty message.
def ServerRequestDriver.on_eof (st : ServerRequestDriver) :
    ServerRequestDriver × String :=
  let st1 : ServerRequestDriver := { st with nclients := st.nclients - 1 }
  if st1.nclients = 0 then
    let st2 : ServerRequestDriver := { st1 with last_response_address := "EOF" }
    base_on_eof st2
  else (st1, "")

-- A client lifecycle event observed by the server request driver: a sign-on
-- (the CIS_CLIENT_INI sentinel delivered to on_message) or a sign-off (an
-- EOF from a client delivered to on_eof).
inductive SREvent where
  | signon : SREvent
  | signoff : SREvent
deriving DecidableEq

-- One pump iteration for one event.  A sign-on runs on_message on the
-- sentinel (the resulting empty message is swallowed, not forwarded); a
-- sign-off runs on_eof.
def ServerRequestDriver.step (st : ServerRequestDriver) : SREvent → ServerRequestDriver
  | SREvent.signon => (ServerRequestDriver.on_message st CIS_CLIENT_INI).1
  | SREvent.signoff => (ServerRequestDriver.on_eof st).1

-- The driver state after processing a sequence of events.
def runTrace (st : ServerRequestDriver) : List SREvent → ServerRequestDriver
  | [] => st
  | e :: rest => runTrace (ServerRequestDriver.step st e) rest

-- Number of sign-ons in a trace.
def countOns : List SREvent → Nat
  | [] => 0
  | SREvent.signon :: rest => countOns rest + 1
  | SREvent.signoff :: rest => countOns rest

-- Number of sign-offs in a trace.
def countOffs : List SREvent → Nat
  | [] => 0
  | SREvent.signon :: rest => countOffs rest
  | SREvent.signoff :: rest => countOffs rest + 1

-- Number of EOF sentinels among the messages forwarded downstream.
def eofCount (l : List (String × HeaderKwargs)) : Nat :=
  (l.filter (fun p => decide (p.1 = eof_msg))).length

-- Number of EOF sentinels the driver has forwarded to the output comm.
def downstreamEOFs (st : ServerRequestDriver) : Nat := eofCount st.sent

-- Number of sign-offs in a trace at which the client counter, started at c,
-- reaches exactly zero (each such point forwards one downstream EOF).
def zeroHits (c : Int) : List SREvent → Nat
  | [] => 0
  | SREvent.signon :: rest => zeroHits (c + 1) rest
  | SREvent.signoff :: rest => (if c - 1 = 0 then 1 else 0) + zeroHits (c - 1) rest

-- A fresh server request driver: no clients, comm open, nothing forwarded.
def initSRD : ServerRequestDriver :=
  { nclients := 0
    last_response_address := ""
    last_id := ""
    comm := none
    comm_open := true
    response_drivers := []
    next_address := 0
    sent := [] }

-- A sign-on step only increments the client counter.
theorem step_signon (st : ServerRequestDriver) :
    ServerRequestDriver.step st SREvent.signon = { st with nclients := st.nclients + 1 } := by
  simp [ServerRequestDriver.step, ServerRequestDriver.on_message, base_on_message,
    CIS_CLIENT_INI]

-- A sign-off step decrements the client counter; exactly when the counter
-- reaches zero the last response address is overwritten with the EOF
-- sentinel and one EOF is forwarded downstream with an untouched header.
theorem step_signoff (st : ServerRequestDriver) :
    ServerRequestDriver.step st SREvent.signoff =
      if st.nclients - 1 = 0 then
        { st with nclients := st.nclients - 1
                  last_response_address := "EOF"
                  sent := st.sent ++ [(eof_msg, emptyHk)] }
      else { st with nclients := st.nclients - 1 } := by
  by_cases h : st.nclients - 1 = 0 <;>
    simp [ServerRequestDriver.step, ServerRequestDriver.on_eof, base_on_eof,
      ServerRequestDriver.send_message, base_send_message, h]

-- The client counter after a trace is the initial counter plus the sign-ons
-- minus the sign-offs.
theorem runTrace_nclients : ∀ (t : List SREvent) (st : ServerRequestDriver),
    (runTrace st t).nclients = st.nclients + countOns t - countOffs t := by
  intro t
  induction t with
  | nil => intro st; simp [runTrace, countOns, countOffs]
  | cons e rest ih =>
    intro st
    cases e with
    | signon =>
      rw [runTrace, step_signon, ih]
      simp [countOns, countOffs]
      omega
    | signoff =>
      rw [runTrace, step_signoff]
      by_cases h : st.nclients - 1 = 0 <;>
        simp [h, ih, countOns, countOffs] <;> omega

-- The downstream EOF count after a trace grows by exactly the number of
-- sign-offs at which the client counter reaches zero.
theorem runTrace_eofs : ∀ (t : List SREvent) (st : ServerRequestDriver),
    downstreamEOFs (runTrace st t) = downstreamEOFs st + zeroHits st.nclients t := by
  intro t
  induction t with
  | nil => intro st; simp [runTrace, zeroHits]
  | cons e rest ih =>
    intro st
    cases e with
    | signon =>
      rw [runTrace, step_signon, ih]
      simp [zeroHits, downstreamEOFs]
    | signoff =>
      rw [runTrace, step_signoff]
      by_cases h : st.nclients - 1 = 0
      · rw [if_pos h, ih]
        simp [downstreamEOFs, eofCount, List.filter_append, zeroHits, h, eof_msg]
        omega
      · rw [if_neg h, ih]
        simp [downstreamEOFs, zeroHits, h]

-- If within every nonempty prefix the sign-offs stay strictly below the
-- initial count plus the sign-ons, the counter never reaches zero.
theorem zeroHits_eq_zero : ∀ (t : List SREvent) (c : Int),
    (∀ j, 0 < j → j ≤ t.length →
      (countOffs (List.take j t) : Int) < c + countOns (List.take j t)) →
    zeroHits c t = 0 := by
  intro t
  induction t with
  | nil => intro c _; rfl
  | cons e rest ih =>
    intro c h
    cases e with
    | signon =>
      show zeroHits (c + 1) rest = 0
      apply ih
      intro j hj hjl
      have h2 := h (j + 1) (by omega) (by simp [List.length_cons]; omega)
      rw [List.take_succ_cons] at h2
      simp [countOffs, countOns] at h2 ⊢
      omega
    | signoff =>
      have h1 := h (0 + 1) (by omega) (by simp [List.length_cons])
      rw [List.take_succ_cons, List.take_zero] at h1
      simp [countOffs, countOns] at h1
      show (if c - 1 = 0 then 1 else 0) + zeroHits (c - 1) rest = 0
      rw [if_neg (by omega)]
      rw [Nat.zero_add]
      apply ih
      intro j hj hjl
      have h2 := h (j + 1) (by omega) (by simp [List.length_cons]; omega)
      rw [List.take_succ_cons] at h2
      simp [countOffs, countOns] at h2 ⊢
      omega

-- If the sign-offs stay strictly below the count within every proper
-- nonempty prefix and exactly balance it on the whole trace, the counter
-- reaches zero exactly once, at the last event.
theorem zeroHits_eq_one : ∀ (t : List SREvent) (c : Int), t ≠ [] → 0 ≤ c →
    (∀ j, 0 < j → j < t.length →
      (countOffs (List.take j t) : Int) < c + countOns (List.take j t)) →
    (countOffs t : Int) = c + countOns t →
    zeroHits c t = 1 := by
  intro t
  induction t with
  | nil => intro c hne _ _ _; exact absurd rfl hne
  | cons e rest ih =>
    intro c _ hc h hbal
    cases e with
    | signon =>
      simp [countOffs, countOns] at hbal
      have hrest : rest ≠ [] := by
        intro heq
        rw [heq] at hbal
        simp [countOffs, countOns] at hbal
        omega
      show zeroHits (c + 1) rest = 1
      apply ih (c + 1) hrest (by omega)
      · intro j hj hjl
        have h2 := h (j + 1) (by omega) (by simp [List.length_cons]; omega)
        rw [List.take_succ_cons] at h2
        simp [countOffs, countOns] at h2 ⊢
        omega
      · omega
    | signoff =>
      by_cases hrest : rest = []
      · subst hrest
        simp [countOffs, countOns] at hbal
        show (if c - 1 = 0 then 1 else 0) + zeroHits (c - 1) [] = 1
        rw [if_pos (by omega)]
        rfl
      · have h1 := h (0 + 1) (by omega)
          (by simp [List.length_cons]; exact List.length_pos.mpr hrest)
        rw [List.take_succ_cons, List.take_zero] at h1
        simp [countOffs, countOns] at h1
        simp only [countOffs, countOns] at hbal
        show (if c - 1 = 0 then 1 else 0) + zeroHits (c - 1) rest = 1
        rw [if_neg (by omega), Nat.zero_add]
        apply ih (c - 1) hrest (by omega)
        · intro j hj hjl
          have h2 := h (j + 1) (by omega) (by simp [List.length_cons]; omega)
          rw [List.take_succ_cons] at h2
          simp [countOffs, countOns] at h2 ⊢
          omega
        · push_cast at hbal ⊢
          omega

-- An interleaving of two sign-ons and two sign-offs in which the sign-offs
-- balance the sign-ons mid-sequence.
def tBad : List SREvent :=
  [SREvent.signon, SREvent.signoff, SREvent.signon, SREvent.signoff]

-- Two sign-ons followed by two sign-offs.
def tGood : List SREvent :=
  [SREvent.signon, SREvent.signon, SREvent.signoff, SREvent.signoff]

/-- C2 counterexample: on the interleaved sequence sign-on, sign-off,
sign-on, sign-off (N = 2) the driver forwards two downstream EOFs, the first
of them already after the first sign-off, and nclients returns to 0 after
the second event as well as at the end; the claim that for interleaved
sequences the downstream EOF is forwarded exactly once and only after the
Nth sign-off is false. -/
theorem server_eof_counterexample :
    countOns tBad = 2 ∧ countOffs tBad = 2 ∧
    downstreamEOFs (runTrace initSRD tBad) = 2 ∧
    downstreamEOFs (runTrace initSRD (List.take 2 tBad)) = 1 ∧
    (runTrace initSRD (List.take 2 tBad)).nclients = 0 :=
  ⟨rfl, rfl, rfl, rfl, rfl⟩

/-- C2 amended: for any sequence of N sign-ons and N sign-offs in which
every proper nonempty prefix contains strictly fewer sign-offs than
sign-ons, nclients returns to 0 exactly once (only at the end of the
sequence) and the downstream EOF is forwarded exactly once, only after the
Nth sign-off; before that no downstream EOF is sent. -/
theorem server_eof_after_all_signoffs (t : List SREvent) (N : Nat) (hN : 0 < N)
    (hons : countOns t = N) (hoffs : countOffs t = N)
    (hpref : ∀ j, j < t.length → 0 < j →
      countOffs (List.take j t) < countOns (List.take j t)) :
    (runTrace initSRD t).nclients = 0 ∧
    downstreamEOFs (runTrace initSRD t) = 1 ∧
    ∀ j, j < t.length →
      downstreamEOFs (runTrace initSRD (List.take j t)) = 0 ∧
      (0 < j → (runTrace initSRD (List.take j t)).nclients ≠ 0) := by
  have hne : t ≠ [] := by
    intro heq
    rw [heq] at hons
    simp [countOns] at hons
    omega
  refine ⟨?_, ?_, ?_⟩
  · rw [runTrace_nclients]
    simp [initSRD, hons, hoffs]
  · rw [runTrace_eofs t initSRD]
    have hz : zeroHits (0 : Int) t = 1 := by
      apply zeroHits_eq_one t 0 hne le_rfl
      · intro j hj hjl
        have := hpref j hjl hj
        omega
      · rw [hons, hoffs]
        simp
    simp [initSRD, downstreamEOFs, eofCount, hz]
  · intro j hjl
    constructor
    · rw [runTrace_eofs (List.take j t) initSRD]
      have hz : zeroHits (0 : Int) (List.take j t) = 0 := by
        apply zeroHits_eq_zero
        intro i hi hil
        rw [List.take_take]
        have hjlen : (List.take j t).length = j := by
          rw [List.length_take]
          omega
        have hij : i ≤ j := by omega
        rw [Nat.min_eq_left hij]
        have := hpref i (by omega) hi
        omega
      simp [initSRD, downstreamEOFs, eofCount, hz]
    · intro hj
      rw [runTrace_nclients]
      have := hpref j hjl hj
      simp [initSRD]
      omega

/-- Witness for C2 amended: two sign-ons followed by two sign-offs. -/
theorem server_eof_after_all_signoffs_witness :
    (runTrace initSRD tGood).nclients = 0 ∧
    downstreamEOFs (runTrace initSRD tGood) = 1 ∧
    ∀ j, j < tGood.length →
      downstreamEOFs (runTrace initSRD (List.take j tGood)) = 0 ∧
      (0 < j → (runTrace initSRD (List.take j tGood)).nclients ≠ 0) :=
  server_eof_after_all_signoffs tGood 2 (by decide) (by decide) (by decide)
    (by decide)

-- A driver state with no signed-on client, used to exercise a sign-off
-- arriving at nclients = 0.
def srdZero : ServerRequestDriver :=
  { nclients := 0
    last_response_address := "client.0"
    last_id := "req.0"
    comm := none
    comm_open := true
    response_drivers := []
    next_address := 0
    sent := [] }

/-- C3 counterexample: a sign-off arriving at nclients = 0 is not an
assert/abort; on_eof silently decrements nclients to -1 and continues,
returning the empty message with the rest of the state untouched, so the
claimed loud failure does not happen and nclients drops below zero. -/
theorem nclients_underflow_counterexample :
    ServerRequestDriver.on_eof srdZero = ({ srdZero with nclients := -1 }, "") := by
  decide

/-- C3 amended: on_eof performs no underflow check: at nclients = 0 it
silently decrements the counter to -1 and continues with the empty message;
the invariant nclients >= 0 holds only for event sequences in which the
sign-offs never outnumber the sign-ons. -/
theorem nclients_invariant_amended :
    (∀ st : ServerRequestDriver, st.nclients = 0 →
      ServerRequestDriver.on_eof st = ({ st with nclients := -1 }, "")) ∧
    (∀ t : List SREvent, countOffs t ≤ countOns t →
      0 ≤ (runTrace initSRD t).nclients) := by
  constructor
  · intro st h
    simp [ServerRequestDriver.on_eof, h]
  · intro t h
    rw [runTrace_nclients]
    simp [initSRD]
    omega

/-- Witness for C3 amended: the underflow state and a balanced trace. -/
theorem nclients_invariant_amended_witness :
    ServerRequestDriver.on_eof srdZero = ({ srdZero with nclients := -1 }, "") ∧
    0 ≤ (runTrace initSRD tGood).nclients :=
  ⟨nclients_invariant_amended.1 srdZero rfl,
    nclients_invariant_amended.2 tGood (by decide)⟩

-- The ephemeral response driver that send_message instantiates and starts
-- for the last received request: bound to the last header's response
-- address and request id, with a fresh model-facing address.
def spawned_response_driver (st : ServerRequestDriver) : ServerResponseDriver :=
  ServerResponseDriver.start
    (mkServerResponseDriver st.last_response_address st.comm st.last_id
      st.next_address)

/-- C5: when the last header's response_address is not the EOF sentinel and
the comm is open, send_message instantiates and starts exactly one new
ServerResponseDriver bound to that response_address and the originating
request id, appends it to response_drivers, and forwards the message with
the outgoing header's response_address set to the new driver's model-facing
address and its id set to the request id; when the response_address is the
EOF sentinel no response driver is created and the message is forwarded
with its header untouched. -/
theorem send_message_spawns_response_driver (st : ServerRequestDriver)
    (msg : String) (hk : HeaderKwargs) (hopen : st.comm_open = true)
    (hra : hk.response_address = none) (hid : hk.id = none)
    (hsh : hk.send_header = none) :
    (st.last_response_address ≠ "EOF" →
      ServerRequestDriver.send_message st msg hk =
        (true,
          { st with
              response_drivers := st.response_drivers ++ [spawned_response_driver st]
              next_address := st.next_address + 1
              sent := st.sent ++ [(msg,
                { send_header := some true
                  response_address :=
                    some (spawned_response_driver st).model_response_address
                  id := some st.last_id })] }) ∧
      (spawned_response_driver st).started = true ∧
      (spawned_response_driver st).response_address = st.last_response_address ∧
      (spawned_response_driver st).msg_id = st.last_id) ∧
    (st.last_response_address = "EOF" →
      ServerRequestDriver.send_message st msg hk =
        (true, { st with sent := st.sent ++ [(msg, hk)] })) := by
  constructor
  · intro h
    refine ⟨?_, rfl, rfl, rfl⟩
    simp [ServerRequestDriver.send_message, base_send_message, hopen, h, hra,
      hid, hsh, spawned_response_driver, mkServerResponseDriver,
      ServerResponseDriver.start, Option.getD]
  · intro h
    simp [ServerRequestDriver.send_message, base_send_message, h]

-- A driver state with an open comm and a pending client request header.
def srdOpen : ServerRequestDriver :=
  { nclients := 1
    last_response_address := "client.resp.1"
    last_id := "req.1"
    comm := none
    comm_open := true
    response_drivers := []
    next_address := 0
    sent := [] }

/-- Witness for C5 on a concrete open driver with an untouched header. -/
theorem send_message_spawns_response_driver_witness :
    ServerRequestDriver.send_message srdOpen "body" emptyHk =
      (true,
        { srdOpen with
            response_drivers := [spawned_response_driver srdOpen]
            next_address := 1
            sent := [("body",
              { send_header := some true
                response_address :=
                  some (spawned_response_driver srdOpen).model_response_address
                id := some "req.1" })] }) :=
  ((send_message_spawns_response_driver srdOpen "body" emptyHk rfl rfl rfl
    rfl).1 (by decide)).1

/-- C6: on_message leaves nclients unchanged and returns the message
unmodified unless the message is the client sign-on sentinel, in which case
nclients is incremented by exactly one and the sentinel is replaced by the
empty message so it is never forwarded downstream. -/
theorem on_message_signon (st : ServerRequestDriver) (msg : String) :
    (msg ≠ CIS_CLIENT_INI → ServerRequestDriver.on_message st msg = (st, msg)) ∧
    ServerRequestDriver.on_message st CIS_CLIENT_INI =
      ({ st with nclients := st.nclients + 1 }, "") := by
  constructor
  · intro h
    simp [ServerRequestDriver.on_message, base_on_message, h]
  · simp [ServerRequestDriver.on_message, base_on_message]

/-- Witness for C6: an ordinary message passes through unchanged and the
sign-on sentinel increments the count and is swallowed. -/
theorem on_message_signon_witness :
    ServerRequestDriver.on_message srdZero "hello" = (srdZero, "hello") ∧
    ServerRequestDriver.on_message srdZero CIS_CLIENT_INI =
      ({ srdZero with nclients := 1 }, "") :=
  ⟨(on_message_signon srdZero "hello").1 (by decide),
    (on_message_signon srdZero CIS_CLIENT_INI).2⟩

/-- C9: when on_eof decrements nclients to exactly zero it overwrites the
last header's response_address with the EOF sentinel before delegating to
the base on_eof, so the terminal EOF forwarded downstream goes through
send_message without creating or starting a ServerResponseDriver and leaves
response_drivers unchanged. -/
theorem on_eof_terminal_no_response_driver (st : ServerRequestDriver)
    (h : st.nclients = 1) :
    ServerRequestDriver.on_eof st =
      ({ st with nclients := 0
                 last_response_address := "EOF"
                 sent := st.sent ++ [(eof_msg, emptyHk)] }, eof_msg) := by
  simp [ServerRequestDriver.on_eof, base_on_eof, ServerRequestDriver.send_message,
    base_send_message, h]

-- A driver state with exactly one signed-on client.
def srdOne : ServerRequestDriver :=
  { nclients := 1
    last_response_address := "client.resp.9"
    last_id := "req.9"
    comm := none
    comm_open := true
    response_drivers := []
    next_address := 3
    sent := [] }

/-- Witness for C9 at a concrete single-client driver. -/
theorem on_eof_terminal_no_response_driver_witness :
    ServerRequestDriver.on_eof srdOne =
      ({ srdOne with nclients := 0
                     last_response_address := "EOF"
                     sent := [(eof_msg, emptyHk)] }, eof_msg) :=
  on_eof_terminal_no_response_driver srdOne rfl

/-- C10: when the last header's response_address is not the EOF sentinel but
the comm is not open, send_message returns False with the driver state
unchanged: no response driver is created or started, nothing is appended to
response_drivers, and no message is forwarded downstream. -/
theorem send_message_closed_comm (st : ServerRequestDriver) (msg : String)
    (hk : HeaderKwargs) (haddr : st.last_response_address ≠ "EOF")
    (hclosed : st.comm_open = false) :
    ServerRequestDriver.send_message st msg hk = (false, st) := by
  simp [ServerRequestDriver.send_message, haddr, hclosed]

-- A driver state whose comm has been closed while a request header is
-- pending.
def srdClosed : ServerRequestDriver :=
  { nclients := 1
    last_response_address := "client.resp.2"
    last_id := "req.2"
    comm := none
    comm_open := false
    response_drivers := []
    next_address := 0
    sent := [] }

/-- Witness for C10 at a concrete closed-comm driver. -/
theorem send_message_closed_comm_witness :
    ServerRequestDriver.send_message srdClosed "body" emptyHk =
      (false, srdClosed) :=
  send_message_closed_comm srdClosed "body" emptyHk (by decide) rfl
